import Mathlib

/-!
Shallow embedding of the Tauri native shell in
src/tauri/src-tauri/src/lib.rs (liteclip).

The program has three parts that the claims concern:

* `wait_for_backend_ready` — an HTTP readiness prober that builds a
  reqwest client with a 2-second timeout and then performs up to
  `max_attempts` GET requests against a fixed health URL, sleeping
  500 ms between attempts.

* the output-relay loop inside `run`'s setup closure: it consumes
  `CommandEvent`s from the spawned sidecar child and logs them, stopping
  at a `Terminated` event.

* the setup closure of `run` itself: it creates a `BackendState` with
  `child_pid = None`, manages it, builds the sidecar command, spawns the
  child, and launches the relay task and the probe task (with
  `max_attempts = 40`) in the background.

External effects are modelled as oracles: the outcome of building the
HTTP client, the outcome of constructing the sidecar command, the
outcome of spawning the child, and the HTTP response obtained on each
attempt are inputs; the observable behaviour (requests issued, sleeps
performed, log lines emitted, results returned) is collected in traces.
Console logging inside the probe loop (the per-attempt progress lines)
is the only side effect not recorded in the traces; it is irrelevant to
every claim.
-/

/-- `const BACKEND_PORT: u16 = 5333;` -/
def BACKEND_PORT : Nat := 5333

/-- `const BACKEND_URL: &str = "http://localhost:5333";` -/
def BACKEND_URL : String := "http://localhost:5333"

/-- The reqwest HTTP client, reduced to the only configuration the
source sets: the per-request timeout in seconds. -/
structure HttpClient where
  timeout_secs : Nat
deriving DecidableEq, Repr

/-- The client built by `reqwest::Client::builder().timeout(Duration::from_secs(2)).build()`
when the build succeeds. -/
def reqwest_client : HttpClient := { timeout_secs := 2 }

/-- Outcome of one `client.get(url).send().await`: either a response
with a status code and a body, or a transport error with a message. -/
inductive HttpOutcome where
  | response (status : Nat) (body : String)
  | error (msg : String)
deriving DecidableEq, Repr

/-- `reqwest::StatusCode::is_success`: status in `200..=299`. -/
def statusIsSuccess (status : Nat) : Bool :=
  decide (200 ≤ status ∧ status < 300)

/-- Whether one attempt outcome takes the `Ok(response) if response.status().is_success()`
arm of the match in `wait_for_backend_ready`. -/
def outcomeIsSuccess : HttpOutcome → Bool
  | .response status _ => statusIsSuccess status
  | .error _ => false

/-- Erase the response body, keeping status and the error message.
The probe loop never inspects the body. -/
def dropBody : HttpOutcome → HttpOutcome
  | .response status _ => .response status ""
  | .error e => .error e

/-- One HTTP GET request as issued by the probe loop: its URL and the
client timeout in force. -/
structure HttpRequest where
  url : String
  timeout_secs : Nat
deriving DecidableEq, Repr

/-- The request `client.get(format!("{}/api/health", BACKEND_URL))`. -/
def healthRequest (c : HttpClient) : HttpRequest :=
  { url := BACKEND_URL ++ "/api/health", timeout_secs := c.timeout_secs }

instance exceptDecEq (ε α : Type) [DecidableEq ε] [DecidableEq α] :
    DecidableEq (Except ε α)
  | .ok a, .ok b =>
    if h : a = b then .isTrue (by rw [h])
    else .isFalse (fun hc => h (Except.ok.inj hc))
  | .ok _, .error _ => .isFalse (fun hc => Except.noConfusion hc)
  | .error _, .ok _ => .isFalse (fun hc => Except.noConfusion hc)
  | .error e, .error f =>
    if h : e = f then .isTrue (by rw [h])
    else .isFalse (fun hc => h (Except.error.inj hc))

/-- Observable trace of one call to `wait_for_backend_ready`: the GET
requests issued in order, the sleeps performed (durations in ms, in
order), and the returned `Result<(), String>`. -/
structure ProbeTrace where
  requests : List HttpRequest
  sleeps : List Nat
  result : Except String Unit
deriving DecidableEq, Repr

/-- `"Backend failed to start within timeout period"`, the message of
the `Err` returned when the attempt loop exhausts. -/
def exhaustMsg : String := "Backend failed to start within timeout period"

/-- The `for attempt in 1..=max_attempts` loop body of
`wait_for_backend_ready`, iterating over the remaining attempt numbers.
On a 2xx response it returns `Ok(())` at once; otherwise it logs (not
recorded) and, when `attempt < max_attempts`, sleeps 500 ms before the
next iteration; an empty attempt list yields the exhaustion `Err`. -/
def probeGo (c : HttpClient) (send : Nat → HttpOutcome) (max_attempts : Nat) :
    List Nat → ProbeTrace
  | [] => { requests := [], sleeps := [], result := .error exhaustMsg }
  | attempt :: rest =>
    match send attempt with
    | .response status _ =>
      if statusIsSuccess status then
        { requests := [healthRequest c], sleeps := [], result := .ok () }
      else
        let t := probeGo c send max_attempts rest
        { requests := healthRequest c :: t.requests,
          sleeps := (if attempt < max_attempts then [500] else []) ++ t.sleeps,
          result := t.result }
    | .error _ =>
      let t := probeGo c send max_attempts rest
      { requests := healthRequest c :: t.requests,
        sleeps := (if attempt < max_attempts then [500] else []) ++ t.sleeps,
        result := t.result }

/-- `async fn wait_for_backend_ready(max_attempts: u32) -> Result<(), String>`.
`client_build` is the outcome of building the reqwest client: on
failure the function returns
`Err(format!("Failed to create HTTP client: {}", e))` before any
request; on success it runs the attempt loop over attempts
`1..=max_attempts` with the 2-second-timeout client. `send k` is the
outcome of the GET issued on attempt `k`. -/
def wait_for_backend_ready (client_build : Except String Unit)
    (send : Nat → HttpOutcome) (max_attempts : Nat) : ProbeTrace :=
  match client_build with
  | .error e =>
    { requests := [], sleeps := [],
      result := .error ("Failed to create HTTP client: " ++ e) }
  | .ok _ => probeGo reqwest_client send max_attempts (List.range' 1 max_attempts)

/-- `tauri_plugin_shell::process::CommandEvent`, with `other` standing
for any variant not named by the match arms in the relay loop (the
`_ => {}` arm). Stdout and stderr payloads are kept as the strings they
are logged as (the `String::from_utf8_lossy` conversion is external). -/
inductive CommandEvent where
  | stdout (line : String)
  | stderr (line : String)
  | error (err : String)
  | terminated (code : Option Int)
  | other
deriving DecidableEq, Repr

/-- One console log line: `info` for `println!`, `errlog` for `eprintln!`. -/
inductive LogEntry where
  | info (msg : String)
  | errlog (msg : String)
deriving DecidableEq, Repr

/-- Rust `{:?}` formatting of the `Option<i32>` exit code. -/
def formatExitCode : Option Int → String
  | none => "None"
  | some c => "Some(" ++ toString c ++ ")"

/-- The `while let Some(event) = rx.recv().await` relay loop: given the
sequence of events the channel delivers, returns how many events the
loop received and the log lines it emitted, in order. `terminated`
takes the `break` arm; the channel closing (end of list) also ends the
loop. -/
def relayLoop : List CommandEvent → Nat × List LogEntry
  | [] => (0, [])
  | .stdout line :: rest =>
    ((relayLoop rest).1 + 1, .info ("[Backend] " ++ line) :: (relayLoop rest).2)
  | .stderr line :: rest =>
    ((relayLoop rest).1 + 1, .errlog ("[Backend] " ++ line) :: (relayLoop rest).2)
  | .error err :: rest =>
    ((relayLoop rest).1 + 1, .errlog ("[Backend Error] " ++ err) :: (relayLoop rest).2)
  | .terminated code :: _ =>
    (1, [.info ("[Backend] Process exited with code: " ++ formatExitCode code)])
  | .other :: rest => ((relayLoop rest).1 + 1, (relayLoop rest).2)

/-- `struct BackendState { child_pid: Arc<Mutex<Option<u32>>> }`,
reduced to the contents of the mutex. -/
structure BackendState where
  child_pid : Option Nat
deriving DecidableEq, Repr

/-- A successfully spawned sidecar child: its OS pid and the event
sequence its channel will deliver. -/
structure SpawnedChild where
  pid : Nat
  events : List CommandEvent

/-- Oracle inputs to the setup closure of `run`: the outcome of
`app.shell().sidecar("smart-compressor-backend")`, the outcome of
`sidecar_command.spawn()`, the outcome of building the reqwest client
inside the probe, and the health responses seen by the probe. -/
structure SetupEnv where
  sidecar_command : Except String Unit
  spawn : Except String SpawnedChild
  client_build : Except String Unit
  health : Nat → HttpOutcome

/-- Observable state of the application after setup returned `Ok` and
both background tasks ran to completion: the managed `BackendState`,
the relay task's event count and log output, the probe task's trace,
and the log lines the probe caller emits on the probe's result. -/
structure RunningApp where
  backend_state : BackendState
  relay_processed : Nat
  relay_logs : List LogEntry
  probe : ProbeTrace
  caller_logs : List LogEntry
deriving DecidableEq, Repr

/-- The match in the probe-spawning task of `run`: `Ok` logs readiness,
`Err(e)` logs two warning lines. -/
def probe_caller_logs (t : ProbeTrace) : List LogEntry :=
  match t.result with
  | .ok _ => [.info "Backend is ready!"]
  | .error e =>
    [.errlog ("Backend failed to start: " ++ e),
     .errlog "The application may not function correctly."]

/-- `BackendState { child_pid: Arc::new(Mutex::new(None)) }`, the value
created at the top of the setup closure and handed to `app.manage`. -/
def initial_backend_state : BackendState := { child_pid := none }

/-- The setup closure of `run`. It creates and manages
`initial_backend_state`, then builds the sidecar command (failure
aborts setup with `"Failed to create sidecar command: ..."`), spawns
the child (failure aborts with `"Failed to spawn backend: ..."`), and
on success launches the relay task over the child's events and the
probe task with `max_attempts = 40`, returning `Ok`. No statement of
the closure ever writes to `child_pid`. -/
def run_setup (env : SetupEnv) : Except String RunningApp :=
  match env.sidecar_command with
  | .error e => .error ("Failed to create sidecar command: " ++ e)
  | .ok _ =>
    match env.spawn with
    | .error e => .error ("Failed to spawn backend: " ++ e)
    | .ok child =>
      let probe := wait_for_backend_ready env.client_build env.health 40
      .ok { backend_state := initial_backend_state,
            relay_processed := (relayLoop child.events).1,
            relay_logs := (relayLoop child.events).2,
            probe := probe,
            caller_logs := probe_caller_logs probe }

/-- If every attempt in the remaining range `a, a+1, ..., a+m-1 = N`
fails, the loop issues one request per remaining attempt, sleeps after
each of them except the last, and ends in the exhaustion error. -/
theorem probeGo_allFail (c : HttpClient) (send : Nat → HttpOutcome) (N m : Nat) :
    ∀ a, a + m = N + 1 →
    (∀ k, a ≤ k → k ≤ N → outcomeIsSuccess (send k) = false) →
    probeGo c send N (List.range' a m) =
      { requests := List.replicate m (healthRequest c),
        sleeps := List.replicate (m - 1) 500,
        result := .error exhaustMsg } := by
  induction m with
  | zero => intro a hma hfail; simp [probeGo]
  | succ m ih =>
    intro a hma hfail
    have ha : a ≤ N := by omega
    have hfa := hfail a (le_refl a) ha
    have hrest :
        probeGo c send N (List.range' (a + 1) m) =
          { requests := List.replicate m (healthRequest c),
            sleeps := List.replicate (m - 1) 500,
            result := .error exhaustMsg } :=
      ih (a + 1) (by omega) (fun k hk1 hk2 => hfail k (by omega) hk2)
    have hsleep :
        ((if a < N then [500] else []) ++ List.replicate (m - 1) 500 : List Nat) =
          List.replicate (m + 1 - 1) 500 := by
      by_cases hm : m = 0
      · subst hm
        have : ¬ a < N := by omega
        simp [this]
      · have haN : a < N := by omega
        have hm1 : m = (m - 1) + 1 := by omega
        simp only [haN, if_pos]
        rw [hm1]
        simp [List.replicate_succ]
    rw [List.range'_succ]
    cases hsa : send a with
    | response status body =>
      have hst : statusIsSuccess status = false := by
        rw [hsa] at hfa; simpa [outcomeIsSuccess] using hfa
      simp only [probeGo, hsa, hst, Bool.false_eq_true, if_false, hrest, hsleep]
      simp [List.replicate_succ]
    | error msg =>
      simp only [probeGo, hsa, hrest, hsleep]
      simp [List.replicate_succ]

/-- If attempt `k` in the remaining range `a, ..., N` is the first to
succeed, the loop issues one request per attempt up to and including
`k`, sleeps after each failed attempt before `k`, and returns `Ok`. -/
theorem probeGo_firstSuccess (c : HttpClient) (send : Nat → HttpOutcome) (N m : Nat) :
    ∀ a k, a + m = N + 1 → a ≤ k → k ≤ N →
    outcomeIsSuccess (send k) = true →
    (∀ j, a ≤ j → j < k → outcomeIsSuccess (send j) = false) →
    probeGo c send N (List.range' a m) =
      { requests := List.replicate (k + 1 - a) (healthRequest c),
        sleeps := List.replicate (k - a) 500,
        result := .ok () } := by
  induction m with
  | zero => intro a k hma hak hkN _ _; omega
  | succ m ih =>
    intro a k hma hak hkN hsucc hbefore
    rw [List.range'_succ]
    by_cases hEq : a = k
    · subst hEq
      cases hsa : send a with
      | response status body =>
        have hst : statusIsSuccess status = true := by
          rw [hsa] at hsucc; simpa [outcomeIsSuccess] using hsucc
        have h1 : a + 1 - a = 1 := by omega
        have h0 : a - a = 0 := by omega
        simp [probeGo, hsa, hst, h1, h0]
      | error msg =>
        rw [hsa] at hsucc
        simp [outcomeIsSuccess] at hsucc
    · have hak' : a < k := by omega
      have hfa := hbefore a (le_refl a) hak'
      have hrest :
          probeGo c send N (List.range' (a + 1) m) =
            { requests := List.replicate (k + 1 - (a + 1)) (healthRequest c),
              sleeps := List.replicate (k - (a + 1)) 500,
              result := .ok () } :=
        ih (a + 1) k (by omega) (by omega) hkN hsucc
          (fun j hj1 hj2 => hbefore j (by omega) hj2)
      have haN : a < N := by omega
      have hreq :
          healthRequest c :: List.replicate (k + 1 - (a + 1)) (healthRequest c) =
            List.replicate (k + 1 - a) (healthRequest c) := by
        have : k + 1 - a = (k + 1 - (a + 1)) + 1 := by omega
        rw [this]
        simp [List.replicate_succ]
      have hsleep :
          ((if a < N then [500] else []) ++ List.replicate (k - (a + 1)) 500 : List Nat) =
            List.replicate (k - a) 500 := by
        have : k - a = (k - (a + 1)) + 1 := by omega
        rw [this]
        simp [haN, List.replicate_succ]
      cases hsa : send a with
      | response status body =>
        have hst : statusIsSuccess status = false := by
          rw [hsa] at hfa; simpa [outcomeIsSuccess] using hfa
        simp only [probeGo, hsa, hst, Bool.false_eq_true, if_false, hrest, hreq, hsleep]
      | error msg =>
        simp only [probeGo, hsa, hrest, hreq, hsleep]

/-- The loop returns `Err e` exactly when `e` is the exhaustion message
and every remaining attempt fails. -/
theorem probeGo_error_iff (c : HttpClient) (send : Nat → HttpOutcome)
    (max_attempts m : Nat) :
    ∀ a e, (probeGo c send max_attempts (List.range' a m)).result = .error e ↔
      (e = exhaustMsg ∧ ∀ k, a ≤ k → k < a + m → outcomeIsSuccess (send k) = false) := by
  induction m with
  | zero =>
    intro a e
    constructor
    · intro h
      refine ⟨by simpa [probeGo] using h.symm, ?_⟩
      intro k hk1 hk2; omega
    · rintro ⟨he, _⟩
      simp [probeGo, he]
  | succ m ih =>
    intro a e
    rw [List.range'_succ]
    cases hsa : send a with
    | response status body =>
      by_cases hst : statusIsSuccess status = true
      · constructor
        · intro h
          simp [probeGo, hsa, hst] at h
        · rintro ⟨_, hall⟩
          have := hall a (le_refl a) (by omega)
          rw [hsa] at this
          simp [outcomeIsSuccess, hst] at this
      · have hst' : statusIsSuccess status = false := by
          revert hst; cases statusIsSuccess status <;> simp
        constructor
        · intro h
          simp only [probeGo, hsa, hst', Bool.false_eq_true, if_false] at h
          obtain ⟨he, hall⟩ := (ih (a + 1) e).mp h
          refine ⟨he, ?_⟩
          intro k hk1 hk2
          by_cases hka : k = a
          · subst hka; rw [hsa]; simp [outcomeIsSuccess, hst']
          · exact hall k (by omega) (by omega)
        · rintro ⟨he, hall⟩
          simp only [probeGo, hsa, hst', Bool.false_eq_true, if_false]
          exact (ih (a + 1) e).mpr
            ⟨he, fun k hk1 hk2 => hall k (by omega) (by omega)⟩
    | error msg =>
      constructor
      · intro h
        simp only [probeGo, hsa] at h
        obtain ⟨he, hall⟩ := (ih (a + 1) e).mp h
        refine ⟨he, ?_⟩
        intro k hk1 hk2
        by_cases hka : k = a
        · subst hka; rw [hsa]; simp [outcomeIsSuccess]
        · exact hall k (by omega) (by omega)
      · rintro ⟨he, hall⟩
        simp only [probeGo, hsa]
        exact (ih (a + 1) e).mpr
          ⟨he, fun k hk1 hk2 => hall k (by omega) (by omega)⟩

/-- Every request the loop issues is the fixed health request of the
client in use. -/
theorem probeGo_requests_fixed (c : HttpClient) (send : Nat → HttpOutcome)
    (max_attempts : Nat) :
    ∀ l r, r ∈ (probeGo c send max_attempts l).requests → r = healthRequest c := by
  intro l
  induction l with
  | nil => intro r hr; simp [probeGo] at hr
  | cons attempt rest ih =>
    intro r hr
    cases hsa : send attempt with
    | response status body =>
      by_cases hst : statusIsSuccess status = true
      · simp [probeGo, hsa, hst] at hr
        exact hr
      · have hst' : statusIsSuccess status = false := by
          revert hst; cases statusIsSuccess status <;> simp
        simp only [probeGo, hsa, hst', Bool.false_eq_true, if_false,
          List.mem_cons] at hr
        rcases hr with hr | hr
        · exact hr
        · exact ih r hr
    | error msg =>
      simp only [probeGo, hsa, List.mem_cons] at hr
      rcases hr with hr | hr
      · exact hr
      · exact ih r hr

/-- The loop gives equal traces for attempt oracles that agree up to
response bodies. -/
theorem probeGo_dropBody_congr (c : HttpClient) (send send2 : Nat → HttpOutcome)
    (max_attempts : Nat) (hsame : ∀ k, dropBody (send k) = dropBody (send2 k)) :
    ∀ l, probeGo c send max_attempts l = probeGo c send2 max_attempts l := by
  intro l
  induction l with
  | nil => rfl
  | cons attempt rest ih =>
    have h := hsame attempt
    cases hsa : send attempt with
    | response status body =>
      rw [hsa] at h
      cases hsb : send2 attempt with
      | response status2 body2 =>
        rw [hsb] at h
        have hstatus : status = status2 := by
          simpa [dropBody] using h
        subst hstatus
        by_cases hst : statusIsSuccess status = true
        · simp [probeGo, hsa, hsb, hst]
        · have hst' : statusIsSuccess status = false := by
            revert hst; cases statusIsSuccess status <;> simp
          simp [probeGo, hsa, hsb, hst', ih]
      | error msg2 =>
        rw [hsb] at h
        simp [dropBody] at h
    | error msg =>
      rw [hsa] at h
      cases hsb : send2 attempt with
      | response status2 body2 =>
        rw [hsb] at h
        simp [dropBody] at h
      | error msg2 =>
        simp [probeGo, hsa, hsb, ih]

/-- C1: for every `max_attempts = N ≥ 1` (with the HTTP client built),
if every health request yields a non-2xx response or an error,
`wait_for_backend_ready N` makes exactly `N` GET attempts and returns
failure; if the first 2xx response arrives on attempt `k ≤ N`, it
returns success after exactly `k` attempts and makes no further
attempts. -/
theorem wait_ready_attempt_counts (N : Nat) (hN : 1 ≤ N) (send : Nat → HttpOutcome) :
    ((∀ k, 1 ≤ k → k ≤ N → outcomeIsSuccess (send k) = false) →
      (wait_for_backend_ready (.ok ()) send N).requests.length = N ∧
      (wait_for_backend_ready (.ok ()) send N).result = .error exhaustMsg) ∧
    (∀ k, 1 ≤ k → k ≤ N → outcomeIsSuccess (send k) = true →
      (∀ j, 1 ≤ j → j < k → outcomeIsSuccess (send j) = false) →
      (wait_for_backend_ready (.ok ()) send N).requests.length = k ∧
      (wait_for_backend_ready (.ok ()) send N).result = .ok ()) := by
  constructor
  · intro hfail
    have h := probeGo_allFail reqwest_client send N N 1 (by omega) hfail
    simp only [wait_for_backend_ready, h, List.length_replicate]
    exact ⟨trivial, trivial⟩
  · intro k hk1 hkN hsucc hbefore
    have h := probeGo_firstSuccess reqwest_client send N N 1 k (by omega) hk1 hkN
      hsucc hbefore
    simp only [wait_for_backend_ready, h, List.length_replicate]
    exact ⟨by omega, trivial⟩

/-- Witness for C1 at `N = 3`: an always-failing endpoint yields three
requests and failure; an endpoint first succeeding on attempt 2 yields
two requests and success. -/
theorem wait_ready_attempt_counts_witness :
    ((wait_for_backend_ready (.ok ()) (fun _ => .error "connection refused") 3).requests.length = 3 ∧
      (wait_for_backend_ready (.ok ()) (fun _ => .error "connection refused") 3).result = .error exhaustMsg) ∧
    ((wait_for_backend_ready (.ok ())
        (fun k => if k = 2 then .response 200 "" else .response 503 "busy") 3).requests.length = 2 ∧
      (wait_for_backend_ready (.ok ())
        (fun k => if k = 2 then .response 200 "" else .response 503 "busy") 3).result = .ok ()) :=
  ⟨(wait_ready_attempt_counts 3 (by decide) (fun _ => .error "connection refused")).1
      (fun _ _ _ => rfl),
   (wait_ready_attempt_counts 3 (by decide)
      (fun k => if k = 2 then .response 200 "" else .response 503 "busy")).2
      2 (by decide) (by decide) (by decide)
      (fun j hj1 hj2 => by interval_cases j; decide)⟩

/-- C4: the 500 ms inter-attempt sleep happens after every failed
attempt except the last: with all `N` attempts failing there are
exactly `N - 1` sleeps, a first success on attempt `k` leaves `k - 1`
sleeps, and a success on attempt 1 resolves with no sleep at all. -/
theorem wait_ready_sleep_counts (N : Nat) (hN : 1 ≤ N) (send : Nat → HttpOutcome) :
    ((∀ k, 1 ≤ k → k ≤ N → outcomeIsSuccess (send k) = false) →
      (wait_for_backend_ready (.ok ()) send N).sleeps = List.replicate (N - 1) 500) ∧
    (∀ k, 1 ≤ k → k ≤ N → outcomeIsSuccess (send k) = true →
      (∀ j, 1 ≤ j → j < k → outcomeIsSuccess (send j) = false) →
      (wait_for_backend_ready (.ok ()) send N).sleeps = List.replicate (k - 1) 500) ∧
    (outcomeIsSuccess (send 1) = true →
      (wait_for_backend_ready (.ok ()) send N).sleeps = []) := by
  refine ⟨?_, ?_, ?_⟩
  · intro hfail
    have h := probeGo_allFail reqwest_client send N N 1 (by omega) hfail
    simp only [wait_for_backend_ready, h]
  · intro k hk1 hkN hsucc hbefore
    have h := probeGo_firstSuccess reqwest_client send N N 1 k (by omega) hk1 hkN
      hsucc hbefore
    simp only [wait_for_backend_ready, h]
  · intro hsucc
    have h := probeGo_firstSuccess reqwest_client send N N 1 1 (by omega)
      (le_refl 1) hN hsucc (fun j hj1 hj2 => by omega)
    simp only [wait_for_backend_ready, h]
    rfl

/-- Witness for C4 at `N = 3`: three failures yield two sleeps; a first
success on attempt 2 yields one sleep; a success on attempt 1 yields
none. -/
theorem wait_ready_sleep_counts_witness :
    ((wait_for_backend_ready (.ok ()) (fun _ => .response 503 "busy") 3).sleeps =
      List.replicate 2 500) ∧
    ((wait_for_backend_ready (.ok ())
        (fun k => if k = 2 then .response 200 "" else .response 503 "busy") 3).sleeps =
      List.replicate 1 500) ∧
    ((wait_for_backend_ready (.ok ()) (fun _ => .response 200 "ok") 3).sleeps = []) :=
  ⟨(wait_ready_sleep_counts 3 (by decide) (fun _ => .response 503 "busy")).1
      (fun _ _ _ => by decide),
   (wait_ready_sleep_counts 3 (by decide)
      (fun k => if k = 2 then .response 200 "" else .response 503 "busy")).2.1
      2 (by decide) (by decide) (by decide)
      (fun j hj1 hj2 => by interval_cases j; decide),
   (wait_ready_sleep_counts 3 (by decide) (fun _ => .response 200 "ok")).2.2
      (by decide)⟩

/-- C9: with `max_attempts = 0` the attempt loop runs zero times and
the function returns the exhaustion failure immediately, issuing no
HTTP request and performing no sleep. -/
theorem wait_ready_zero_attempts (send : Nat → HttpOutcome) :
    wait_for_backend_ready (.ok ()) send 0 =
      { requests := [], sleeps := [], result := .error exhaustMsg } := rfl

/-- Counterexample to C6: when the HTTP client fails to build,
`wait_for_backend_ready 3` returns failure having made zero attempts —
no exhaustion happened (the endpoint would even have answered 2xx on
attempt 1) — so exhaustion is not the only way the function returns
failure. -/
theorem wait_ready_failure_without_exhaustion :
    (wait_for_backend_ready (.error "oom") (fun _ => .response 200 "ok") 3).result =
      .error ("Failed to create HTTP client: " ++ "oom") ∧
    (wait_for_backend_ready (.error "oom") (fun _ => .response 200 "ok") 3).requests = [] ∧
    outcomeIsSuccess ((fun _ => .response 200 "ok") 1) = true :=
  ⟨rfl, rfl, by decide⟩

/-- C6 as amended: for `N ≥ 1`, exhausting all `N` attempts without a
2xx response makes `wait_for_backend_ready N` return an `Err` carrying
the descriptive exhaustion message, and exhaustion and HTTP-client
construction failure are the only ways it returns failure: with the
client built, any returned error is the exhaustion message and implies
every attempt failed; with the client build failing, the error is the
client-construction message. -/
theorem wait_ready_failure_modes (N : Nat) (hN : 1 ≤ N) (send : Nat → HttpOutcome) :
    ((∀ k, 1 ≤ k → k ≤ N → outcomeIsSuccess (send k) = false) →
      (wait_for_backend_ready (.ok ()) send N).result = .error exhaustMsg) ∧
    (∀ e, (wait_for_backend_ready (.ok ()) send N).result = .error e →
      e = exhaustMsg ∧ ∀ k, 1 ≤ k → k ≤ N → outcomeIsSuccess (send k) = false) ∧
    (∀ e, (wait_for_backend_ready (.error e) send N).result =
      .error ("Failed to create HTTP client: " ++ e)) := by
  refine ⟨?_, ?_, fun e => rfl⟩
  · intro hfail
    have h := probeGo_allFail reqwest_client send N N 1 (by omega) hfail
    simp only [wait_for_backend_ready, h]
  · intro e h
    simp only [wait_for_backend_ready] at h
    obtain ⟨he, hall⟩ :=
      (probeGo_error_iff reqwest_client send N N 1 e).mp h
    exact ⟨he, fun k hk1 hk2 => hall k hk1 (by omega)⟩

/-- Witness for C6 (amended) at `N = 3`: exhaustion of an
always-refusing endpoint yields the exhaustion error, and a failed
client build yields the client-construction error. -/
theorem wait_ready_failure_modes_witness :
    (wait_for_backend_ready (.ok ()) (fun _ => .error "refused") 3).result =
      .error exhaustMsg ∧
    (wait_for_backend_ready (.error "oops") (fun _ => .error "refused") 3).result =
      .error ("Failed to create HTTP client: " ++ "oops") :=
  ⟨(wait_ready_failure_modes 3 (by decide) (fun _ => .error "refused")).1
      (fun _ _ _ => rfl),
   (wait_ready_failure_modes 3 (by decide) (fun _ => .error "refused")).2.2 "oops"⟩

/-- C7: every probe attempt issues a GET to the fixed URL
`http://localhost:5333/api/health` with the fixed 2-second client
timeout; a single attempt succeeds exactly when the response status is
2xx; and the trace is unchanged under any change of response bodies
(the body is ignored). -/
theorem wait_ready_request_shape (send : Nat → HttpOutcome) (N : Nat) :
    (∀ r ∈ (wait_for_backend_ready (.ok ()) send N).requests,
      r = { url := "http://localhost:5333/api/health", timeout_secs := 2 }) ∧
    ((wait_for_backend_ready (.ok ()) send 1).result = .ok () ↔
      ∃ s b, send 1 = .response s b ∧ 200 ≤ s ∧ s < 300) ∧
    (∀ send2 : Nat → HttpOutcome, (∀ k, dropBody (send k) = dropBody (send2 k)) →
      wait_for_backend_ready (.ok ()) send N = wait_for_backend_ready (.ok ()) send2 N) := by
  refine ⟨?_, ?_, ?_⟩
  · intro r hr
    have h := probeGo_requests_fixed reqwest_client send N (List.range' 1 N) r
      (by simpa [wait_for_backend_ready] using hr)
    rw [h]
    decide
  · constructor
    · intro h
      rw [show wait_for_backend_ready (.ok ()) send 1 =
            probeGo reqwest_client send 1 [1] from rfl] at h
      cases hs1 : send 1 with
      | response status body =>
        by_cases hst : statusIsSuccess status = true
        · exact ⟨status, body, rfl, (of_decide_eq_true hst).1, (of_decide_eq_true hst).2⟩
        · have hst' : statusIsSuccess status = false := by
            revert hst; cases statusIsSuccess status <;> simp
          simp [probeGo, hs1, hst'] at h
      | error msg =>
        simp [probeGo, hs1] at h
    · rintro ⟨s, b, hsb, h1, h2⟩
      have hst : statusIsSuccess s = true := decide_eq_true ⟨h1, h2⟩
      rw [show wait_for_backend_ready (.ok ()) send 1 =
            probeGo reqwest_client send 1 [1] from rfl]
      simp [probeGo, hsb, hst]
  · intro send2 hsame
    simp only [wait_for_backend_ready]
    exact probeGo_dropBody_congr reqwest_client send send2 N hsame (List.range' 1 N)

/-- Witness for C7: a 200 response on the single attempt yields
success, and two oracles differing only in bodies yield identical
traces. -/
theorem wait_ready_request_shape_witness :
    (wait_for_backend_ready (.ok ()) (fun _ => .response 200 "body A") 1).result = .ok () ∧
    wait_for_backend_ready (.ok ()) (fun _ => .response 503 "body A") 2 =
      wait_for_backend_ready (.ok ()) (fun _ => .response 503 "body B") 2 :=
  ⟨(wait_ready_request_shape (fun _ => .response 200 "body A") 1).2.1.mpr
      ⟨200, "body A", rfl, by decide, by decide⟩,
   (wait_ready_request_shape (fun _ => .response 503 "body A") 2).2.2
      (fun _ => .response 503 "body B") (fun _ => rfl)⟩

/-- C5: in the relay loop a termination event is terminal — it is
logged with its optional exit code and stops the loop regardless of any
later events — while stdout, stderr, and spawn/IO-error events are
logged and never stop the loop; a child emitting one stdout line, one
stderr line, then terminating causes exactly three events to be
processed, in order, before the loop exits. -/
theorem relay_event_processing :
    (∀ (code : Option Int) (rest : List CommandEvent),
      relayLoop (.terminated code :: rest) =
        (1, [.info ("[Backend] Process exited with code: " ++ formatExitCode code)])) ∧
    (∀ (line : String) (rest : List CommandEvent),
      relayLoop (.stdout line :: rest) =
        ((relayLoop rest).1 + 1, .info ("[Backend] " ++ line) :: (relayLoop rest).2)) ∧
    (∀ (line : String) (rest : List CommandEvent),
      relayLoop (.stderr line :: rest) =
        ((relayLoop rest).1 + 1, .errlog ("[Backend] " ++ line) :: (relayLoop rest).2)) ∧
    (∀ (err : String) (rest : List CommandEvent),
      relayLoop (.error err :: rest) =
        ((relayLoop rest).1 + 1, .errlog ("[Backend Error] " ++ err) :: (relayLoop rest).2)) ∧
    (∀ (out err : String) (code : Option Int),
      relayLoop [.stdout out, .stderr err, .terminated code] =
        (3, [.info ("[Backend] " ++ out), .errlog ("[Backend] " ++ err),
             .info ("[Backend] Process exited with code: " ++ formatExitCode code)])) :=
  ⟨fun _ _ => rfl, fun _ _ => rfl, fun _ _ => rfl, fun _ _ => rfl, fun _ _ _ => rfl⟩

/-- C10: the relay loop silently ignores any child-process event other
than stdout, stderr, spawn/IO-error, and terminated: such an event adds
no log output and does not stop the loop, which continues with the
remaining events. -/
theorem relay_ignores_unknown_events (rest : List CommandEvent) :
    relayLoop (.other :: rest) = ((relayLoop rest).1 + 1, (relayLoop rest).2) := rfl

/-- Counterexample to C2: after a successful spawn of a child with
pid 42, the shared backend handle still holds `none` — the pid is never
stored, contradicting that it "is set to the child's process id ...
when the subprocess spawns successfully". -/
theorem backend_pid_not_recorded :
    (run_setup { sidecar_command := .ok (),
                 spawn := .ok { pid := 42, events := [.terminated (some 0)] },
                 client_build := .ok (),
                 health := fun _ => .error "connection refused" }).map
      (fun a => a.backend_state.child_pid) = .ok none ∧
    (Except.ok (none : Option Nat) : Except String (Option Nat)) ≠ .ok (some 42) :=
  ⟨rfl, by decide⟩

/-- C2 as amended: the shared backend process handle is initialized to
absent (`none`) at startup and is never written afterwards — in
particular it still holds `none` after the subprocess spawns
successfully (recording the pid is left for future use). -/
theorem backend_pid_stays_none :
    initial_backend_state.child_pid = none ∧
    ∀ (child : SpawnedChild) (cb : Except String Unit) (health : Nat → HttpOutcome),
      (run_setup { sidecar_command := .ok (), spawn := .ok child,
                   client_build := cb, health := health }).map
        (fun a => a.backend_state.child_pid) = .ok none :=
  ⟨rfl, fun _ _ _ => rfl⟩

/-- Counterexample to C3: with the HTTP client failing to build (and
the sidecar command and spawn succeeding), setup still returns `Ok` —
the application starts, and the client-construction error is merely
logged by the probe caller, contradicting that it "aborts
initialization ... the application does not start". -/
theorem client_build_failure_not_fatal :
    (run_setup { sidecar_command := .ok (),
                 spawn := .ok { pid := 42, events := [.terminated (some 0)] },
                 client_build := .error "oom",
                 health := fun _ => .response 200 "ok" }).isOk = true ∧
    (run_setup { sidecar_command := .ok (),
                 spawn := .ok { pid := 42, events := [.terminated (some 0)] },
                 client_build := .error "oom",
                 health := fun _ => .response 200 "ok" }).map
      (fun a => a.caller_logs) =
      .ok [.errlog ("Backend failed to start: " ++ ("Failed to create HTTP client: " ++ "oom")),
           .errlog "The application may not function correctly."] :=
  ⟨rfl, rfl⟩

/-- C3 as amended: sidecar-command construction failure and subprocess
spawn failure propagate up through application setup and abort
initialization with an explanatory message; HTTP-client construction
failure does not — `wait_for_backend_ready` returns it as an `Err`
with an explanatory message, the background probe caller only logs it
as a warning, and the application still starts. -/
theorem client_build_failure_logged_only (e : String) (child : SpawnedChild)
    (health : Nat → HttpOutcome) :
    (∀ msg cb h, run_setup { sidecar_command := .error msg, spawn := .ok child,
                             client_build := cb, health := h } =
      .error ("Failed to create sidecar command: " ++ msg)) ∧
    (∀ msg cb h, run_setup { sidecar_command := .ok (), spawn := .error msg,
                             client_build := cb, health := h } =
      .error ("Failed to spawn backend: " ++ msg)) ∧
    ((run_setup { sidecar_command := .ok (), spawn := .ok child,
                  client_build := .error e, health := health }).isOk = true) ∧
    ((run_setup { sidecar_command := .ok (), spawn := .ok child,
                  client_build := .error e, health := health }).map
      (fun a => a.probe.result) =
      .ok (.error ("Failed to create HTTP client: " ++ e))) ∧
    ((run_setup { sidecar_command := .ok (), spawn := .ok child,
                  client_build := .error e, health := health }).map
      (fun a => a.caller_logs) =
      .ok [.errlog ("Backend failed to start: " ++ ("Failed to create HTTP client: " ++ e)),
           .errlog "The application may not function correctly."]) :=
  ⟨fun _ _ _ => rfl, fun _ _ _ => rfl, rfl, rfl, rfl⟩

/-- C8: when the probe (called with `max_attempts = 40`) fails on every
attempt, setup still returns `Ok` with the backend state unchanged from
its initial value, a probe trace of exactly 40 requests (the probe is
not restarted), and a caller that only logs the two warning lines. -/
theorem probe_failure_only_warns (child : SpawnedChild)
    (health : Nat → HttpOutcome)
    (hfail : ∀ k, 1 ≤ k → k ≤ 40 → outcomeIsSuccess (health k) = false) :
    run_setup { sidecar_command := .ok (), spawn := .ok child,
                client_build := .ok (), health := health } =
      .ok { backend_state := initial_backend_state,
            relay_processed := (relayLoop child.events).1,
            relay_logs := (relayLoop child.events).2,
            probe := { requests := List.replicate 40 (healthRequest reqwest_client),
                       sleeps := List.replicate 39 500,
                       result := .error exhaustMsg },
            caller_logs := [.errlog ("Backend failed to start: " ++ exhaustMsg),
                            .errlog "The application may not function correctly."] } := by
  have h := probeGo_allFail reqwest_client health 40 40 1 (by omega) hfail
  simp only [run_setup, wait_for_backend_ready, h, probe_caller_logs]

/-- Witness for C8: a concrete child and an always-refusing endpoint. -/
theorem probe_failure_only_warns_witness :
    run_setup { sidecar_command := .ok (),
                spawn := .ok { pid := 42, events := [.terminated (some 0)] },
                client_build := .ok (),
                health := fun _ => .error "connection refused" } =
      .ok { backend_state := initial_backend_state,
            relay_processed := 1,
            relay_logs := [.info ("[Backend] Process exited with code: " ++ formatExitCode (some 0))],
            probe := { requests := List.replicate 40 (healthRequest reqwest_client),
                       sleeps := List.replicate 39 500,
                       result := .error exhaustMsg },
            caller_logs := [.errlog ("Backend failed to start: " ++ exhaustMsg),
                            .errlog "The application may not function correctly."] } :=
  probe_failure_only_warns { pid := 42, events := [.terminated (some 0)] }
    (fun _ => .error "connection refused") (fun _ _ _ => rfl)
